import Mathlib

/-!
Shallow embedding of the portfolio-dashboard core logic from
`src/jpm-dashboard/src/App.jsx`:

* `generatePortfolioData` (lines 36-82): synthetic record generation.
  JavaScript's `Math.random()` is modelled as an explicit stream
  `rand : ℕ → ℚ` of draws; the k-th call to `Math.random()` reads `rand k`.
  Each loop iteration makes six calls, in source order: segment, region,
  base balance, risk uniform, default draw, revenue uniform.
* `filteredData` (lines 151-159): `filterRecords`.
* `metrics` (lines 162-183): `computeMetrics`.  JavaScript division of
  floats yields `NaN` on `0/0`; division is modelled as `jsDiv` returning
  `Option ℚ` with `none` standing for the `NaN` produced by a zero
  denominator.
* `segmentData` (lines 185-202): `groupBySegment`, a keyed accumulator in
  first-insertion order (JavaScript object with string keys).
* `regionData` (lines 204-211): `groupByRegion`, the same accumulation
  followed by `sort((a, b) => b.revenue - a.revenue)`.

Number semantics: JavaScript doubles are modelled as exact rationals.
`Math.round(x)` and the rounding inside `toFixed` both round half toward
positive infinity, i.e. `⌊x + 1/2⌋` (`jsRound`); `parseFloat(x.toFixed(d))`
is `roundTo d`.
-/

/-- JavaScript `Math.round` / the rounding of `toFixed`: half rounds up. -/
def jsRound (x : ℚ) : ℤ := ⌊x + 1/2⌋

/-- Model of `parseFloat(x.toFixed(d))`: round to `d` decimal digits. -/
def roundTo (d : ℕ) (x : ℚ) : ℚ := (jsRound (x * 10 ^ d) : ℚ) / 10 ^ d

/-- One synthetic customer-account snapshot (the object pushed at
App.jsx lines 69-79). -/
structure PortfolioRecord where
  customerId : String
  segment : String
  region : String
  accountBalance : ℤ
  creditLimit : ℚ
  utilization : ℚ
  riskScore : ℚ
  annualRevenue : ℤ
  defaultFlag : Bool

/-- The segment enumeration (App.jsx line 37). -/
def segments : List String := ["Mass Market", "Affluent", "High Net Worth"]

/-- The region enumeration (App.jsx line 38). -/
def regions : List String := ["North America", "EMEA", "APAC", "LatAm"]

/-- `segments[Math.floor(r * segments.length)]` (App.jsx line 42). -/
def segmentOf (r : ℚ) : String := segments.getD (Int.toNat ⌊r * 3⌋) ""

/-- `regions[Math.floor(r * regions.length)]` (App.jsx line 43). -/
def regionOf (r : ℚ) : String := regions.getD (Int.toNat ⌊r * 4⌋) ""

/-- The per-segment base balance draw (App.jsx lines 47-59). -/
def baseBalanceOf (segment : String) (r : ℚ) : ℚ :=
  if segment = "High Net Worth" then 50000 + r * 150000
  else if segment = "Affluent" then 15000 + r * 50000
  else 1000 + r * 10000

/-- The per-segment credit limit (App.jsx lines 47-59). -/
def baseLimitOf (segment : String) : ℚ :=
  if segment = "High Net Worth" then 100000
  else if segment = "Affluent" then 40000
  else 15000

/-- The per-segment `riskFactor` constant (App.jsx lines 47-59).  It is
assigned in the source but never read afterwards. -/
def riskFactorOf (segment : String) : ℚ :=
  if segment = "High Net Worth" then 1/10
  else if segment = "Affluent" then 3/10
  else 3/5

/-- One iteration of the generation loop (App.jsx lines 41-80), with the
six `Math.random()` results passed explicitly in call order. -/
def mkRecord (i : ℕ) (r0 r1 r2 r3 r4 r5 : ℚ) : PortfolioRecord :=
  let segment := segmentOf r0
  let region := regionOf r1
  let baseBalance := baseBalanceOf segment r2
  let baseLimit := baseLimitOf segment
  let utilization := min (baseBalance / baseLimit) (6/5)
  let riskRaw := r3 * (2/5) + utilization * (1/2)
  let riskBiased := if segment = "Mass Market" then riskRaw + 1/10 else riskRaw
  let riskScore := min (max riskBiased (1/100)) (99/100)
  let defaultFlag := decide (r4 < if riskScore > 3/4 then (2:ℚ)/5 else 1/50)
  let annualRevenue := baseBalance * (1/25) + r5 * 500
  { customerId := "CUST-" ++ toString (1000 + i)
    segment := segment
    region := region
    accountBalance := jsRound baseBalance
    creditLimit := baseLimit
    utilization := roundTo 2 utilization
    riskScore := roundTo 3 riskScore
    annualRevenue := jsRound annualRevenue
    defaultFlag := defaultFlag }

/-- `generatePortfolioData` (App.jsx lines 36-82): a loop of exactly 200
iterations; there is no count parameter in the source. -/
def generatePortfolioData (rand : ℕ → ℚ) : List PortfolioRecord :=
  (List.range 200).map fun i =>
    mkRecord i (rand (6*i)) (rand (6*i+1)) (rand (6*i+2))
      (rand (6*i+3)) (rand (6*i+4)) (rand (6*i+5))

/-- The filter predicate of `filteredData` (App.jsx lines 151-159). -/
def keepRecord (segFilter regFilter : String) (d : PortfolioRecord) : Bool :=
  (segFilter == "all" || d.segment == segFilter) &&
    (regFilter == "all" || d.region == regFilter)

/-- `filteredData` (App.jsx lines 151-159) as a function of the records
and the two filter selections. -/
def filterRecords (records : List PortfolioRecord)
    (segFilter regFilter : String) : List PortfolioRecord :=
  records.filter (keepRecord segFilter regFilter)

/-- JavaScript float division, with `none` standing for the `NaN`
produced when the denominator is zero. -/
def jsDiv (a b : ℚ) : Option ℚ := if b = 0 then none else some (a / b)

/-- The four aggregate metrics (App.jsx lines 162-183).  The two averaged
fields are `Option ℚ` because the source divides by `filteredData.length`,
which yields `NaN` on an empty filtered set. -/
structure AggregateMetrics where
  totalBalance : ℤ
  totalRevenue : ℤ
  avgRisk : Option ℚ
  defaultRate : Option ℚ

/-- `metrics` (App.jsx lines 162-183). -/
def computeMetrics (filtered : List PortfolioRecord) : AggregateMetrics :=
  let totalBalance := filtered.foldl (fun acc curr => acc + curr.accountBalance) 0
  let totalRevenue := filtered.foldl (fun acc curr => acc + curr.annualRevenue) 0
  let avgRisk :=
    jsDiv (filtered.foldl (fun acc curr => acc + curr.riskScore) 0)
      (filtered.length : ℚ)
  let defaults := (filtered.filter (fun d => d.defaultFlag)).length
  let defaultRate := (jsDiv (defaults : ℚ) (filtered.length : ℚ)).map (fun x => x * 100)
  { totalBalance := totalBalance
    totalRevenue := totalRevenue
    avgRisk := avgRisk
    defaultRate := defaultRate }

/-- One per-segment accumulator entry (App.jsx lines 188-195). -/
structure SegmentSummary where
  name : String
  value : ℤ
  balance : ℤ
  count : ℕ
  revenue : ℤ

/-- Adding one record's figures to an existing segment entry
(App.jsx lines 196-199). -/
def bumpSegment (s : SegmentSummary) (d : PortfolioRecord) : SegmentSummary :=
  { s with value := s.value + d.annualRevenue
           balance := s.balance + d.accountBalance
           revenue := s.revenue + d.annualRevenue
           count := s.count + 1 }

/-- One step of the `forEach` of `segmentData` (App.jsx lines 187-200):
update the keyed entry if present, else append a fresh entry holding the
record's figures (create-with-zeros then add). -/
def insertSegment : List SegmentSummary → PortfolioRecord → List SegmentSummary
  | [], d => [{ name := d.segment, value := d.annualRevenue,
                balance := d.accountBalance, count := 1,
                revenue := d.annualRevenue }]
  | s :: rest, d =>
      if s.name = d.segment then bumpSegment s d :: rest
      else s :: insertSegment rest d

/-- `segmentData` (App.jsx lines 185-202): `Object.values` of the keyed
accumulator, in first-insertion order. -/
def groupBySegment (filtered : List PortfolioRecord) : List SegmentSummary :=
  filtered.foldl insertSegment []

/-- One per-region accumulator entry (App.jsx line 207). -/
structure RegionSummary where
  name : String
  revenue : ℤ

/-- One step of the `forEach` of `regionData` (App.jsx lines 206-209). -/
def insertRegion : List RegionSummary → PortfolioRecord → List RegionSummary
  | [], d => [{ name := d.region, revenue := d.annualRevenue }]
  | s :: rest, d =>
      if s.name = d.region then
        { s with revenue := s.revenue + d.annualRevenue } :: rest
      else s :: insertRegion rest d

/-- `regionData` (App.jsx lines 204-211): accumulate, then
`sort((a, b) => b.revenue - a.revenue)`, i.e. descending revenue. -/
def groupByRegion (filtered : List PortfolioRecord) : List RegionSummary :=
  (filtered.foldl insertRegion []).mergeSort
    (fun a b => decide (b.revenue ≤ a.revenue))

/-- Modelled from the spec (Data Model, `utilization`): the value the
claimed invariant derives from a record's stored fields, namely
`accountBalance / creditLimit` clamped to `[0, 1.2]` and rounded to two
decimals.  Written from the spec's words for comparison with the stored
field; the source computes utilization from the pre-rounding balance. -/
def utilizationClampRule (balance limit : ℚ) : ℚ :=
  roundTo 2 (min (max (balance / limit) 0) (6/5))

/-- The three hand-written records of the end-to-end scenario of
spec §8 item 7, with the fields the scenario fixes. -/
def exampleRecords : List PortfolioRecord :=
  [ { customerId := "CUST-1", segment := "Mass Market",
      region := "North America", accountBalance := 5000,
      creditLimit := 15000, utilization := 33/100, riskScore := 3/10,
      annualRevenue := 700, defaultFlag := false },
    { customerId := "CUST-2", segment := "Affluent", region := "EMEA",
      accountBalance := 20000, creditLimit := 40000, utilization := 1/2,
      riskScore := 1/2, annualRevenue := 1300, defaultFlag := false },
    { customerId := "CUST-3", segment := "High Net Worth", region := "EMEA",
      accountBalance := 100000, creditLimit := 100000, utilization := 1,
      riskScore := 1/5, annualRevenue := 4500, defaultFlag := true } ]

/-- C1 counterexample: the source generator takes no count argument at
all, and whatever stream of random draws it is run on — in particular the
one standing in for a hypothetical `generate(0)` call — it returns 200
records, not an empty sequence. -/
theorem generator_ignores_count_returns_200 :
    (generatePortfolioData (fun _ => 0)).length = 200 ∧ (200 : ℕ) ≠ 0 := by
  refine ⟨?_, by decide⟩
  simp [generatePortfolioData]

/-- C1 (amended): `generatePortfolioData` has no count parameter; for
every random stream it produces exactly 200 records. -/
theorem generate_length_always_200 (rand : ℕ → ℚ) :
    (generatePortfolioData rand).length = 200 := by
  simp [generatePortfolioData]

/-- C2 counterexample: on the empty filtered set, `avgRisk` and
`defaultRate` are the result of dividing by zero (`NaN` in the source,
modelled as `none`), not a defined sentinel value. -/
theorem computeMetrics_empty_avg_and_rate_nan :
    (computeMetrics []).avgRisk = none ∧ (computeMetrics []).defaultRate = none := by
  constructor <;> simp [computeMetrics, jsDiv]

/-- C2 (amended): on the empty filtered set `computeMetrics` still
returns a record (no exception): the two running sums are 0, while
`avgRisk` and `defaultRate` are the `NaN` of a zero division (`none`),
not a defined sentinel. -/
theorem computeMetrics_empty_behavior :
    (computeMetrics []).totalBalance = 0 ∧ (computeMetrics []).totalRevenue = 0 ∧
      (computeMetrics []).avgRisk = none ∧ (computeMetrics []).defaultRate = none := by
  refine ⟨?_, ?_, ?_, ?_⟩ <;> simp [computeMetrics, jsDiv]

/-- C3 counterexample: on the scenario's three records with both filters
set to `all`, the returned `avgRisk` is exactly `1/3`, which is not the
claimed value `0.3333`. -/
theorem metrics_example_avgRisk_not_3333 :
    (computeMetrics (filterRecords exampleRecords "all" "all")).avgRisk = some (1/3) ∧
      (1/3 : ℚ) ≠ 3333/10000 := by
  constructor
  · norm_num [computeMetrics, filterRecords, keepRecord, exampleRecords, jsDiv]
  · norm_num

/-- C3 (amended): on the scenario's three records with both filters `all`,
`totalBalance = 125000`, `totalRevenue = 6500`, `avgRisk = 1/3` (which
rounds to `0.3333` at four decimals) and `defaultRate = 100/3 %` (which
rounds to `33.33`); filtering the same records to region `EMEA` keeps
exactly 2 records whose `totalRevenue = 5800`. -/
theorem metrics_example_scenario :
    (computeMetrics (filterRecords exampleRecords "all" "all")).totalBalance = 125000 ∧
    (computeMetrics (filterRecords exampleRecords "all" "all")).totalRevenue = 6500 ∧
    (computeMetrics (filterRecords exampleRecords "all" "all")).avgRisk = some (1/3) ∧
    roundTo 4 (1/3) = 3333/10000 ∧
    (computeMetrics (filterRecords exampleRecords "all" "all")).defaultRate = some (100/3) ∧
    roundTo 2 (100/3) = 3333/100 ∧
    (filterRecords exampleRecords "all" "EMEA").length = 2 ∧
    (computeMetrics (filterRecords exampleRecords "all" "EMEA")).totalRevenue = 5800 := by
  refine ⟨?_, ?_, ?_, ?_, ?_, ?_, ?_, ?_⟩
  · norm_num [computeMetrics, filterRecords, keepRecord, exampleRecords, jsDiv]
  · norm_num [computeMetrics, filterRecords, keepRecord, exampleRecords, jsDiv]
  · norm_num [computeMetrics, filterRecords, keepRecord, exampleRecords, jsDiv]
  · norm_num [roundTo, jsRound]
  · norm_num [computeMetrics, filterRecords, keepRecord, exampleRecords, jsDiv]
  · norm_num [roundTo, jsRound]
  · norm_num [filterRecords, keepRecord, exampleRecords,
      List.filter_cons, List.filter_nil]
    simp
  · norm_num [computeMetrics, filterRecords, keepRecord, exampleRecords, jsDiv,
      List.filter_cons, List.filter_nil]
    simp

/-- C10: on the empty filtered set the two running sums of
`computeMetrics` are exactly 0. -/
theorem computeMetrics_empty_totals_zero :
    (computeMetrics []).totalBalance = 0 ∧ (computeMetrics []).totalRevenue = 0 := by
  constructor <;> simp [computeMetrics]

/-- The base balance draw is nonnegative for a nonnegative uniform draw,
in every segment branch. -/
theorem baseBalanceOf_nonneg (s : String) {r : ℚ} (hr : 0 ≤ r) :
    0 ≤ baseBalanceOf s r := by
  unfold baseBalanceOf
  split_ifs <;> nlinarith

/-- Every segment's credit limit is positive. -/
theorem baseLimitOf_pos (s : String) : 0 < baseLimitOf s := by
  unfold baseLimitOf
  split_ifs <;> norm_num

/-- C4 counterexample: for the Mass Market draw with base balance
`1124.9999` the record stores `utilization = 0.07`, while applying the
spec's clamp rule to the record's own stored fields
(`accountBalance = 1125`, `creditLimit = 15000`) gives `0.08`: the stored
utilization is computed from the pre-rounding balance and is not
derivable from the stored one. -/
theorem utilization_not_derivable_from_stored :
    (mkRecord 0 0 0 (1249999/100000000) 0 0 0).utilization = 7/100 ∧
      utilizationClampRule ((mkRecord 0 0 0 (1249999/100000000) 0 0 0).accountBalance : ℚ)
        (mkRecord 0 0 0 (1249999/100000000) 0 0 0).creditLimit = 2/25 ∧
      (7/100 : ℚ) ≠ 2/25 := by
  refine ⟨?_, ?_, by norm_num⟩ <;>
    simp [mkRecord, segmentOf, segments, baseBalanceOf, baseLimitOf,
      utilizationClampRule] <;>
    norm_num [roundTo, jsRound, min_def, max_def]

/-- C4 (amended): the stored utilization follows the clamp rule applied
to the record's pre-rounding base balance (not the stored, rounded
`accountBalance`): it equals `baseBalance / creditLimit` clamped to
`[0, 1.2]` and rounded to 2 decimals, for every nonnegative balance
draw. -/
theorem utilization_from_raw_balance (i : ℕ) (r0 r1 r2 r3 r4 r5 : ℚ)
    (h : 0 ≤ r2) :
    (mkRecord i r0 r1 r2 r3 r4 r5).utilization =
      roundTo 2 (min (max (baseBalanceOf (segmentOf r0) r2 /
        baseLimitOf (segmentOf r0)) 0) (6/5)) := by
  have hq : 0 ≤ baseBalanceOf (segmentOf r0) r2 / baseLimitOf (segmentOf r0) :=
    div_nonneg (baseBalanceOf_nonneg _ h) (le_of_lt (baseLimitOf_pos _))
  rw [max_eq_left hq]
  rfl

/-- Witness for C4's amended theorem at the all-zero draw. -/
theorem utilization_from_raw_balance_witness :
    (0 : ℚ) ≤ 0 ∧
      (mkRecord 0 0 0 0 0 0 0).utilization =
        roundTo 2 (min (max (baseBalanceOf (segmentOf 0) 0 /
          baseLimitOf (segmentOf 0)) 0) (6/5)) :=
  ⟨le_rfl, utilization_from_raw_balance 0 0 0 0 0 0 0 le_rfl⟩

/-- C5: the stored risk score is the uniform draw times 0.4 plus the
(unrounded) utilization times 0.5, plus a flat 0.1 exactly when the
segment is Mass Market, clamped to `[0.01, 0.99]` and rounded to three
decimals. -/
theorem riskScore_formula (i : ℕ) (r0 r1 r2 r3 r4 r5 : ℚ) :
    (mkRecord i r0 r1 r2 r3 r4 r5).riskScore =
      roundTo 3 (min (max (r3 * (2/5) +
        (min (baseBalanceOf (segmentOf r0) r2 / baseLimitOf (segmentOf r0)) (6/5)) * (1/2) +
        (if segmentOf r0 = "Mass Market" then (1/10 : ℚ) else 0)) (1/100)) (99/100)) := by
  by_cases h : segmentOf r0 = "Mass Market" <;>
    simp [mkRecord, h]

/-- C6: a record passes `filterRecords` exactly when each filter is
either `all` or matches the record's field, and the output is a sublist
of the input (input order preserved). -/
theorem filterRecords_keeps_iff_and_preserves_order
    (records : List PortfolioRecord) (segF regF : String) :
    (filterRecords records segF regF).Sublist records ∧
      ∀ d, d ∈ filterRecords records segF regF ↔
        d ∈ records ∧ (segF = "all" ∨ d.segment = segF) ∧
          (regF = "all" ∨ d.region = regF) := by
  refine ⟨List.filter_sublist _, fun d => ?_⟩
  simp [filterRecords, keepRecord, List.mem_filter, and_assoc]

/-- One accumulation step preserves the balance total: inserting a record
adds exactly its `accountBalance` to the summed balances. -/
theorem insertSegment_balance_sum (acc : List SegmentSummary)
    (d : PortfolioRecord) :
    ((insertSegment acc d).map SegmentSummary.balance).sum =
      (acc.map SegmentSummary.balance).sum + d.accountBalance := by
  induction acc with
  | nil => simp [insertSegment]
  | cons s rest ih =>
      by_cases h : s.name = d.segment
      · simp only [insertSegment, h, if_pos, List.map_cons, List.sum_cons,
          bumpSegment]
        ring
      · simp only [insertSegment, h, if_neg, not_false_iff, List.map_cons,
          List.sum_cons, ih]
        ring

/-- Folding the segment accumulator over a record list adds the list's
total balance to the accumulator's total. -/
theorem foldl_insertSegment_balance_sum (l : List PortfolioRecord) :
    ∀ acc : List SegmentSummary,
      ((l.foldl insertSegment acc).map SegmentSummary.balance).sum =
        (acc.map SegmentSummary.balance).sum +
          (l.map PortfolioRecord.accountBalance).sum := by
  induction l with
  | nil => intro acc; simp
  | cons d rest ih =>
      intro acc
      simp only [List.foldl_cons, List.map_cons, List.sum_cons]
      rw [ih, insertSegment_balance_sum]
      ring

/-- C7: the per-segment balance accumulators of `groupBySegment` sum to
the total `accountBalance` of the filtered set — the grouping is an
exhaustive, non-overlapping partition. -/
theorem groupBySegment_balance_partition (filtered : List PortfolioRecord) :
    ((groupBySegment filtered).map SegmentSummary.balance).sum =
      (filtered.map PortfolioRecord.accountBalance).sum := by
  have h := foldl_insertSegment_balance_sum filtered []
  simpa [groupBySegment] using h

/-- C8: the region summaries returned by `groupByRegion` are sorted by
descending revenue — every adjacent pair `(a, b)` satisfies
`b.revenue ≤ a.revenue`. -/
theorem groupByRegion_sorted_desc (filtered : List PortfolioRecord) :
    List.Chain' (fun a b => b.revenue ≤ a.revenue) (groupByRegion filtered) := by
  have hp : List.Pairwise
      (fun a b : RegionSummary => decide (b.revenue ≤ a.revenue) = true)
      ((filtered.foldl insertRegion []).mergeSort
        (fun a b => decide (b.revenue ≤ a.revenue))) := by
    refine List.sorted_mergeSort ?_ ?_ _
    · intro a b c hab hbc
      simp only [decide_eq_true_eq] at *
      exact le_trans hbc hab
    · intro a b
      simp only [Bool.or_eq_true, decide_eq_true_eq]
      exact le_total b.revenue a.revenue
  have hp2 : List.Pairwise (fun a b : RegionSummary => b.revenue ≤ a.revenue)
      (groupByRegion filtered) := by
    unfold groupByRegion
    exact hp.imp (fun hab => by simpa using hab)
  exact hp2.chain'

/-- Rounding half-up preserves nonnegativity. -/
theorem jsRound_nonneg {x : ℚ} (hx : 0 ≤ x) : 0 ≤ jsRound x := by
  unfold jsRound
  exact Int.le_floor.mpr (by push_cast; linarith)

/-- Rounding to d decimals preserves nonnegativity. -/
theorem roundTo_nonneg (d : ℕ) {x : ℚ} (hx : 0 ≤ x) : 0 ≤ roundTo d x := by
  unfold roundTo
  have h10 : (0:ℚ) < 10 ^ d := by positivity
  have hnum : 0 ≤ jsRound (x * 10 ^ d) :=
    jsRound_nonneg (mul_nonneg hx h10.le)
  exact div_nonneg (by exact_mod_cast hnum) h10.le

/-- Upper bound for decimal rounding: if `x * 10^d` is at most the
integer `n`, the rounded value is at most `n / 10^d`. -/
theorem roundTo_le_of_le (d : ℕ) {x : ℚ} {n : ℤ} (hx : x * 10 ^ d ≤ n) :
    roundTo d x ≤ (n : ℚ) / 10 ^ d := by
  unfold roundTo jsRound
  have h10 : (0:ℚ) < 10 ^ d := by positivity
  have hfl : ⌊x * 10 ^ d + 1/2⌋ ≤ n := by
    have h1 : ⌊x * 10 ^ d + 1/2⌋ ≤ ⌊(n : ℚ) + 1/2⌋ :=
      Int.floor_le_floor (by linarith)
    have h2 : ⌊(n : ℚ) + 1/2⌋ = n := by
      rw [Int.floor_int_add]
      norm_num
    omega
  gcongr

/-- Lower bound for decimal rounding: if `x * 10^d` is at least the
integer `n`, the rounded value is at least `n / 10^d`. -/
theorem le_roundTo_of_le (d : ℕ) {x : ℚ} {n : ℤ} (hx : (n : ℚ) ≤ x * 10 ^ d) :
    (n : ℚ) / 10 ^ d ≤ roundTo d x := by
  unfold roundTo jsRound
  have h10 : (0:ℚ) < 10 ^ d := by positivity
  have hfl : n ≤ ⌊x * 10 ^ d + 1/2⌋ := Int.le_floor.mpr (by linarith)
  gcongr

/-- Rounding a value clamped to `[0.01, 0.99]` to three decimals stays
within `[0.01, 0.99]` (both endpoints are exact at three decimals). -/
theorem roundTo3_clamp_bounds (x : ℚ) :
    1/100 ≤ roundTo 3 (min (max x (1/100)) (99/100)) ∧
      roundTo 3 (min (max x (1/100)) (99/100)) ≤ 99/100 := by
  set s := min (max x (1/100)) (99/100) with hs
  have hlo : (1:ℚ)/100 ≤ s := le_min (le_max_right _ _) (by norm_num)
  have hhi : s ≤ 99/100 := min_le_right _ _
  constructor
  · have h := le_roundTo_of_le 3 (x := s) (n := 10) (by push_cast; linarith)
    calc (1:ℚ)/100 = (10:ℚ)/10^3 := by norm_num
    _ ≤ roundTo 3 s := h
  · have h := roundTo_le_of_le 3 (x := s) (n := 990) (by push_cast; linarith)
    calc roundTo 3 s ≤ ((990:ℤ):ℚ)/10^3 := h
    _ = 99/100 := by norm_num

/-- Rounding a value of `[0, 1.2]` to two decimals stays in `[0, 1.2]`. -/
theorem roundTo2_util_bounds {u : ℚ} (h0 : 0 ≤ u) (h1 : u ≤ 6/5) :
    0 ≤ roundTo 2 u ∧ roundTo 2 u ≤ 6/5 := by
  constructor
  · exact roundTo_nonneg 2 h0
  · have h := roundTo_le_of_le 2 (x := u) (n := 120) (by push_cast; linarith)
    calc roundTo 2 u ≤ ((120:ℤ):ℚ)/10^2 := h
    _ = 6/5 := by norm_num

/-- Bounds for one generated record, given nonnegative balance and
revenue draws. -/
theorem mkRecord_bounds (i : ℕ) (r0 r1 r2 r3 r4 r5 : ℚ)
    (h2 : 0 ≤ r2) (h5 : 0 ≤ r5) :
    1/100 ≤ (mkRecord i r0 r1 r2 r3 r4 r5).riskScore ∧
    (mkRecord i r0 r1 r2 r3 r4 r5).riskScore ≤ 99/100 ∧
    0 ≤ (mkRecord i r0 r1 r2 r3 r4 r5).utilization ∧
    (mkRecord i r0 r1 r2 r3 r4 r5).utilization ≤ 6/5 ∧
    0 ≤ (mkRecord i r0 r1 r2 r3 r4 r5).accountBalance ∧
    0 ≤ (mkRecord i r0 r1 r2 r3 r4 r5).annualRevenue := by
  have hbase : 0 ≤ baseBalanceOf (segmentOf r0) r2 := baseBalanceOf_nonneg _ h2
  have hlim : 0 < baseLimitOf (segmentOf r0) := baseLimitOf_pos _
  have hratio : 0 ≤ baseBalanceOf (segmentOf r0) r2 / baseLimitOf (segmentOf r0) :=
    div_nonneg hbase hlim.le
  simp only [mkRecord]
  refine ⟨?_, ?_, ?_, ?_, ?_, ?_⟩
  · exact (roundTo3_clamp_bounds _).1
  · exact (roundTo3_clamp_bounds _).2
  · exact (roundTo2_util_bounds (le_min hratio (by norm_num)) (min_le_right _ _)).1
  · exact (roundTo2_util_bounds (le_min hratio (by norm_num)) (min_le_right _ _)).2
  · exact jsRound_nonneg hbase
  · exact jsRound_nonneg (by nlinarith)

/-- C9: every record produced by the generator on a stream of
nonnegative draws satisfies `0.01 <= riskScore <= 0.99`,
`0 <= utilization <= 1.2`, `accountBalance >= 0` and
`annualRevenue >= 0`. -/
theorem generated_record_bounds (rand : ℕ → ℚ) (rec : PortfolioRecord)
    (hpos : ∀ k, 0 ≤ rand k) (hmem : rec ∈ generatePortfolioData rand) :
    1/100 ≤ rec.riskScore ∧ rec.riskScore ≤ 99/100 ∧
    0 ≤ rec.utilization ∧ rec.utilization ≤ 6/5 ∧
    0 ≤ rec.accountBalance ∧ 0 ≤ rec.annualRevenue := by
  simp only [generatePortfolioData, List.mem_map, List.mem_range] at hmem
  obtain ⟨i, -, rfl⟩ := hmem
  exact mkRecord_bounds _ _ _ _ _ _ _ (hpos _) (hpos _)

/-- Witness for C9 on the all-zero random stream, at its first record. -/
theorem generated_record_bounds_witness :
    1/100 ≤ (mkRecord 0 0 0 0 0 0 0).riskScore ∧
    (mkRecord 0 0 0 0 0 0 0).riskScore ≤ 99/100 ∧
    0 ≤ (mkRecord 0 0 0 0 0 0 0).utilization ∧
    (mkRecord 0 0 0 0 0 0 0).utilization ≤ 6/5 ∧
    0 ≤ (mkRecord 0 0 0 0 0 0 0).accountBalance ∧
    0 ≤ (mkRecord 0 0 0 0 0 0 0).annualRevenue :=
  generated_record_bounds (fun _ => 0) (mkRecord 0 0 0 0 0 0 0)
    (fun _ => le_rfl)
    (List.mem_map.mpr ⟨0, List.mem_range.mpr (by norm_num), rfl⟩)
